import Mathlib

/-!
Verification of the airline-saga orchestrator (`airline_saga`), a saga-pattern
booking coordinator.  The definitions below are a shallow embedding of the
Python sources:

* `src/airline_saga/orchestrator/main.py` — the forward booking pipeline
  (`process_booking`), the cancellation pipeline (`cancel_booking_process`)
  and the cancel endpoint (`cancel_booking`);
* `src/airline_saga/orchestrator/services/commands/*.py` — the command
  variants (`SeatCommand`, `PaymentCommand`, `AllocateCommand`) and the
  command factory (`OrchestratorCommandFactory`);
* `src/airline_saga/common/models.py`, `config.py` — the shared data model.

HTTP calls are modelled by an environment assigning each collaborator
endpoint a `CallOutcome`: either a transport-level error (the client raised)
or a response with a status code and an already-decoded JSON body (every
collaborator replies with JSON).  Exceptions are modelled by `Option`
error components; mutation of the booking record is explicit state passing.
-/

namespace AirlineSaga

/-- `TransactionStatus` from `common/models.py`. -/
inductive TStatus
  | PENDING
  | COMPLETED
  | FAILED
  | RELEASED
  | REFUNDED
  | CANCELLED
deriving DecidableEq, Repr

/-- `BookingStatus` from `common/models.py`. -/
inductive BStatus
  | PENDING
  | COMPLETED
  | FAILED
  | CANCELLED
deriving DecidableEq, Repr

/-- The `data: Optional[Dict[str, Any]]` payload of a `TransactionResult`,
restricted to the keys the orchestrator reads (`timestamp`,
`boarding_pass`).  A missing key is `none`. -/
structure TxData where
  timestamp : Option String
  boarding_pass : Option String
deriving DecidableEq, Repr

/-- `TransactionResult` from `common/models.py` (pydantic model). -/
structure TransactionResult where
  success : Bool
  booking_id : String
  status : TStatus
  message : String
  data : Option TxData
deriving DecidableEq, Repr

/-- A decoded JSON response body as the orchestrator reads it:
`message` is the value of `json().get("message", ...)` when present, and
`tx` is `some _` exactly when `TransactionResult(**json())` validates. -/
structure RespBody where
  message : Option String
  tx : Option TransactionResult
deriving DecidableEq, Repr

/-- An `httpx.Response`: a status code plus the decoded JSON body.  (A real
`httpx.Response` has *no* attributes `status` or `data`; accessing them
raises `AttributeError` — this matters for the `undo` methods.) -/
structure HttpResponse where
  status_code : Nat
  body : RespBody
deriving DecidableEq, Repr

/-- Outcome of one collaborator HTTP call: the client raised
(connection error, timeout, ...) or a response came back. -/
inductive CallOutcome
  | transportError
  | resp (r : HttpResponse)
deriving DecidableEq, Repr

/-- `BookingStep` from `common/models.py`. -/
structure BookingStep where
  service : String
  operation : String
  status : TStatus
  timestamp : String
  message : Option String := none
deriving DecidableEq, Repr

/-- `BookingDetails` from `orchestrator/models.py`.  The boarding pass is an
opaque payload; only its presence and identity matter to the orchestrator. -/
structure BookingDetails where
  booking_id : String
  status : BStatus
  passenger_name : String
  flight_number : String
  seat_number : String
  steps : List BookingStep
  boarding_pass : Option String := none
deriving DecidableEq, Repr

/-- `OrchestratorSettings` from `common/config.py` (collaborator base URLs,
with the defaults from `ServiceSettings`). -/
structure OrchestratorSettings where
  seat_service_url : String := "http://localhost:8001"
  payment_service_url : String := "http://localhost:8002"
  allocation_service_url : String := "http://localhost:8003"
deriving DecidableEq, Repr

/-- `CancellationResponse` from `orchestrator/models.py`. -/
structure CancellationResponse where
  booking_id : String
  status : BStatus
  message : String
  compensation_steps : List BookingStep
deriving DecidableEq, Repr

/-- The collaborator endpoints `process_booking` / `cancel_booking_process`
POST to, used to trace which calls a run makes, in order. -/
inductive Endpoint
  | blockSeat          -- seat_service_url ++ "/api/seats/block"
  | processPayment     -- payment_service_url ++ "/api/payments/process"
  | allocateSeat       -- allocation_service_url ++ "/api/allocations/allocate"
  | releaseSeat        -- seat_service_url ++ "/api/seats/release"
  | refundPayment      -- payment_service_url ++ "/api/payments/refund"
  | cancelAllocation   -- allocation_service_url ++ "/api/allocations/cancel"
deriving DecidableEq, Repr

/-- One outcome per collaborator endpoint for a single run.  Each endpoint
is called at most once per pipeline run, so a fixed outcome per endpoint
captures a run exactly. -/
structure Env where
  block : CallOutcome
  pay : CallOutcome
  alloc : CallOutcome
  release : CallOutcome
  refund : CallOutcome
  cancelAlloc : CallOutcome
deriving DecidableEq, Repr

/-- Helper: build a `BookingStep` (the keyword-argument constructor calls). -/
def mkStep (service operation : String) (status : TStatus) (timestamp : String)
    (message : Option String := none) : BookingStep :=
  { service := service, operation := operation, status := status,
    timestamp := timestamp, message := message }

/-- `process_booking` from `orchestrator/main.py` (lines 174–327), the
hard-coded forward pipeline seat → payment → allocation.  Returns the
booking after the run together with the trace of collaborator calls
issued (a call is traced when the POST is attempted, even if the client
then raises).  The whole body runs inside `try/except Exception`
whose handler sets `status = FAILED`, so every raising path ends FAILED.

Notes on the translation of the Python:
* `TransactionResult(**response.json())` fails pydantic validation exactly
  when `body.tx = none`;
* `result.data.get("timestamp", "")` raises `AttributeError` when
  `data` is `None` (hence `tx.data = none` branches raise);
* `if allocation_result.data and "boarding_pass" in allocation_result.data`
  is True exactly when the data dict holds a boarding pass (an absent or
  empty/falsy dict also lacks the key). -/
def process_booking (env : Env) (b0 : BookingDetails) :
    BookingDetails × List Endpoint :=
  -- Step 1: Block seat
  let tr1 := [Endpoint.blockSeat]
  match env.block with
  | .transportError => ({ b0 with status := .FAILED }, tr1)
  | .resp r =>
    if r.status_code = 200 then
      match r.body.tx with
      | none => ({ b0 with status := .FAILED }, tr1)
      | some tx =>
        match tx.data with
        | none => ({ b0 with status := .FAILED }, tr1)
        | some d =>
          let b1 := { b0 with steps := b0.steps ++
            [mkStep "seat_service" "block_seat" tx.status (d.timestamp.getD "")] }
          -- Step 2: Process payment
          let tr2 := tr1 ++ [Endpoint.processPayment]
          match env.pay with
          | .transportError => ({ b1 with status := .FAILED }, tr2)
          | .resp pr =>
            if pr.status_code = 200 then
              match pr.body.tx with
              | none => ({ b1 with status := .FAILED }, tr2)
              | some ptx =>
                match ptx.data with
                | none => ({ b1 with status := .FAILED }, tr2)
                | some pd =>
                  let b2 := { b1 with steps := b1.steps ++
                    [mkStep "payment_service" "process_payment" ptx.status
                      (pd.timestamp.getD "")] }
                  -- Step 3: Allocate seat
                  let tr3 := tr2 ++ [Endpoint.allocateSeat]
                  match env.alloc with
                  | .transportError => ({ b2 with status := .FAILED }, tr3)
                  | .resp ar =>
                    if ar.status_code = 200 then
                      match ar.body.tx with
                      | none => ({ b2 with status := .FAILED }, tr3)
                      | some atx =>
                        match atx.data with
                        | none => ({ b2 with status := .FAILED }, tr3)
                        | some ad =>
                          let b3 := { b2 with steps := b2.steps ++
                            [mkStep "allocation_service" "allocate_seat"
                              atx.status (ad.timestamp.getD "")] }
                          let b4 := if ad.boarding_pass.isSome then
                              { b3 with boarding_pass := ad.boarding_pass }
                            else b3
                          ({ b4 with status := .COMPLETED }, tr3)
                    else
                      -- Allocation rejected: refund payment (errors swallowed
                      -- by compensate_payment_processing), release seat
                      -- (compensate_seat_blocking re-raises transport errors;
                      -- the response itself is discarded), then raise.
                      let tr4 := tr3 ++ [Endpoint.refundPayment, Endpoint.releaseSeat]
                      ({ b2 with status := .FAILED }, tr4)
            else
              -- Payment rejected: record a FAILED step with the error
              -- message, release the seat, record the release outcome,
              -- then raise OrchestratorException.
              let msg := pr.body.message.getD "Unknown error"
              let bf := { b1 with steps := b1.steps ++
                [mkStep "payment_service" "process_payment" .FAILED "" (some msg)] }
              let tr3 := tr2 ++ [Endpoint.releaseSeat]
              match env.release with
              | .transportError => ({ bf with status := .FAILED }, tr3)
              | .resp rr =>
                match rr.body.tx with
                | none => ({ bf with status := .FAILED }, tr3)
                | some rtx =>
                  match rtx.data with
                  | none => ({ bf with status := .FAILED }, tr3)
                  | some rd =>
                    let bg := { bf with steps := bf.steps ++
                      [mkStep "seat_service" "release_seat" rtx.status
                        (rd.timestamp.getD "")] }
                    ({ bg with status := .FAILED }, tr3)
    else
      -- Seat blocking rejected: raise OrchestratorException (no step
      -- appended, nothing to compensate).
      ({ b0 with status := .FAILED }, tr1)

/-- A collaborator call whose outcome lets the orchestrator record a step:
the response came back with code 200, the body validated as a
`TransactionResult`, and its `data` dict is present (so the
`data.get("timestamp", ...)` access succeeds). -/
def isSuccess : CallOutcome → Bool
  | .transportError => false
  | .resp r =>
    r.status_code == 200 &&
      (match r.body.tx with
       | none => false
       | some tx => tx.data.isSome)

/-- The step `cancel_booking_process` appends for one compensating call
(empty when the call does not succeed in the sense of `isSuccess`). -/
def compensationStep (service operation : String) : CallOutcome → List BookingStep
  | .transportError => []
  | .resp r =>
    if r.status_code = 200 then
      match r.body.tx with
      | none => []
      | some tx =>
        match tx.data with
        | none => []
        | some d => [mkStep service operation tx.status (d.timestamp.getD "")]
    else []

/-- `cancel_booking_process` from `orchestrator/main.py` (lines 330–409).
Three `try` blocks, each always issuing its POST first (so every run
attempts cancel-allocation, refund, release, in that order); a block's
exception — transport error, pydantic validation failure, or the
`AttributeError` from `data.get` on a `None` data — is caught by its
`except Exception: pass`, so the following blocks still run and only a
successful block appends its step to `compensation_steps`.  The collected
steps are extended onto the booking's step log at the end; the status is
not touched. -/
def cancel_booking_process (env : Env) (b : BookingDetails) :
    BookingDetails × List Endpoint :=
  let comp :=
    compensationStep "allocation_service" "cancel_allocation" env.cancelAlloc
      ++ compensationStep "payment_service" "refund_payment" env.refund
      ++ compensationStep "seat_service" "release_seat" env.release
  ({ b with steps := b.steps ++ comp },
   [Endpoint.cancelAllocation, Endpoint.refundPayment, Endpoint.releaseSeat])

/-- The in-memory `bookings_db: Dict[str, BookingDetails]`. -/
abbrev BookingsDb := List (String × BookingDetails)

/-- Dictionary lookup `bookings_db[booking_id]` / `booking_id in bookings_db`. -/
def dbLookup : BookingsDb → String → Option BookingDetails
  | [], _ => none
  | (k, v) :: rest, bid => if k = bid then some v else dbLookup rest bid

/-- Dictionary assignment `bookings_db[booking_id] = booking`. -/
def dbInsert : BookingsDb → String → BookingDetails → BookingsDb
  | [], bid, b => [(bid, b)]
  | (k, v) :: rest, bid, b =>
    if k = bid then (bid, b) :: rest else (k, v) :: dbInsert rest bid b

/-- The `cancel_booking` endpoint from `orchestrator/main.py`
(lines 127–171).  Returns `none` when the id is unknown
(`BookingNotFoundException`); otherwise the response, the database after
the synchronous part, and whether `cancel_booking_process` was enqueued
as a background task.  A booking already CANCELLED is returned as-is with
its existing step log and no background task; any other booking (the code
checks only for CANCELLED) is set to CANCELLED and the background
cancellation pipeline is enqueued. -/
def cancel_booking (db : BookingsDb) (booking_id : String) :
    Option (CancellationResponse × BookingsDb × Bool) :=
  match dbLookup db booking_id with
  | none => none
  | some booking =>
    if booking.status = .CANCELLED then
      some ({ booking_id := booking_id, status := .CANCELLED,
              message := "Booking already cancelled",
              compensation_steps := booking.steps }, db, false)
    else
      let booking' := { booking with status := BStatus.CANCELLED }
      some ({ booking_id := booking_id, status := .CANCELLED,
              message := "Booking cancellation started",
              compensation_steps := [] }, dbInsert db booking_id booking', true)

/-!  ## Command variants (`services/commands/*.py`)

Each command's `execute`/`undo` is a function of the collaborator call's
outcome and the booking; the result is the booking after the method ran
(the Python mutates `self.booking.steps` in place, so mutations made
before a raise persist) together with the exception raised, if any. -/

/-- The exceptions the command methods can raise. -/
inductive CommandError
  | stepFailure (booking_id : String) (message : String)  -- OrchestratorException
  | transportError                                        -- httpx client error propagating
  | validationError                                       -- pydantic TransactionResult(**json) failed
  | attributeError                                        -- attribute access on an object lacking it
deriving DecidableEq, Repr

/-- `SeatCommand.execute` (`seat_command.py`, lines 37–86).  On a non-200
response it appends a FAILED `block_seat` step carrying the collaborator's
message and raises `OrchestratorException` with the booking id and cause;
on 200 it appends one step with the returned status. -/
def seatCommand_execute (o : CallOutcome) (b : BookingDetails) :
    BookingDetails × Option CommandError :=
  match o with
  | .transportError => (b, some .transportError)
  | .resp r =>
    if r.status_code = 200 then
      match r.body.tx with
      | none => (b, some .validationError)
      | some tx =>
        match tx.data with
        | none => (b, some .attributeError)
        | some d =>
          ({ b with steps := b.steps ++
            [mkStep "seat_service" "block_seat" tx.status (d.timestamp.getD "")] },
           none)
    else
      let msg := r.body.message.getD "Unknown error"
      ({ b with steps := b.steps ++
        [mkStep "seat_service" "block_seat" .FAILED "" (some msg)] },
       some (.stepFailure b.booking_id ("Failed to block seat: " ++ msg)))

/-- `PaymentCommand.execute` (`payment_command.py`, lines 37–90).  Same
shape as `SeatCommand.execute` with the payment collaborator. -/
def paymentCommand_execute (o : CallOutcome) (b : BookingDetails) :
    BookingDetails × Option CommandError :=
  match o with
  | .transportError => (b, some .transportError)
  | .resp r =>
    if r.status_code = 200 then
      match r.body.tx with
      | none => (b, some .validationError)
      | some tx =>
        match tx.data with
        | none => (b, some .attributeError)
        | some d =>
          ({ b with steps := b.steps ++
            [mkStep "payment_service" "process_payment" tx.status (d.timestamp.getD "")] },
           none)
    else
      let msg := r.body.message.getD "Unknown error"
      ({ b with steps := b.steps ++
        [mkStep "payment_service" "process_payment" .FAILED "" (some msg)] },
       some (.stepFailure b.booking_id ("Failed to process payment: " ++ msg)))

/-- `AllocateCommand.execute` (`allocation_command.py`, lines 39–82).  On a
non-200 response it raises `OrchestratorException` *without appending any
step* (unlike the seat and payment variants); on 200 it appends one step
and stores the boarding pass when the data dict carries one. -/
def allocateCommand_execute (o : CallOutcome) (b : BookingDetails) :
    BookingDetails × Option CommandError :=
  match o with
  | .transportError => (b, some .transportError)
  | .resp r =>
    if r.status_code = 200 then
      match r.body.tx with
      | none => (b, some .validationError)
      | some tx =>
        match tx.data with
        | none => (b, some .attributeError)
        | some d =>
          let b' := { b with steps := b.steps ++
            [mkStep "allocation_service" "allocate_seat" tx.status (d.timestamp.getD "")] }
          (if d.boarding_pass.isSome then { b' with boarding_pass := d.boarding_pass }
           else b', none)
    else
      let msg := r.body.message.getD "Unknown error"
      (b, some (.stepFailure b.booking_id ("Failed to allocate seat: " ++ msg)))

/-- `SeatCommand.undo` (`seat_command.py`, lines 88–117).  Parses the
release response into a `TransactionResult` (without looking at the status
code) and appends one `release_seat` step with the returned status; any
exception in the `try` is logged and re-raised. -/
def seatCommand_undo (o : CallOutcome) (b : BookingDetails) :
    BookingDetails × Option CommandError :=
  match o with
  | .transportError => (b, some .transportError)
  | .resp r =>
    match r.body.tx with
    | none => (b, some .validationError)
    | some tx =>
      match tx.data with
      | none => (b, some .attributeError)
      | some d =>
        ({ b with steps := b.steps ++
          [mkStep "seat_service" "release_seat" tx.status (d.timestamp.getD "")] },
         none)

/-- `PaymentCommand.undo` (`payment_command.py`, lines 93–124).  After
parsing the refund response into `refund_result`, the source builds the
step from `response.status` and `response.data.get(...)` — but `response`
is the `httpx.Response`, which has no attribute `status` (only
`status_code`) and no attribute `data`.  The attribute access raises
`AttributeError`, the `except` clause re-raises it, and no step is ever
appended. -/
def paymentCommand_undo (o : CallOutcome) (b : BookingDetails) :
    BookingDetails × Option CommandError :=
  match o with
  | .transportError => (b, some .transportError)
  | .resp r =>
    match r.body.tx with
    | none => (b, some .validationError)
    | some _ => (b, some .attributeError)

/-- `AllocateCommand.undo` (`allocation_command.py`, lines 84–117).  Same
`response.status` / `response.data` defect as `PaymentCommand.undo`: the
attribute access raises `AttributeError` after a successful parse, so no
step is ever appended. -/
def allocateCommand_undo (o : CallOutcome) (b : BookingDetails) :
    BookingDetails × Option CommandError :=
  match o with
  | .transportError => (b, some .transportError)
  | .resp r =>
    match r.body.tx with
    | none => (b, some .validationError)
    | some _ => (b, some .attributeError)

/-- The POST request issued by `AllocateCommand.undo`
(`allocation_command.py`, lines 98–101): the target URL and the
`booking_id` sent in the JSON body.  The source builds the URL from
`self.settings.payment_service_url`, not the allocation service URL. -/
def allocateCommand_undo_request (s : OrchestratorSettings) (b : BookingDetails) :
    String × String :=
  (s.payment_service_url ++ "/api/allocations/cancel", b.booking_id)

/-! ## Command factory (`services/commands/command_factory.py`) -/

/-- `OrchestratorCommandType` (enum values `"ALLOCATION"`, `"PAYMENT"`,
`"SEAT"`). -/
inductive OrchestratorCommandType
  | ALLOCATION
  | PAYMENT
  | SEAT
deriving DecidableEq, Repr

/-- `OrchestratorCommandType(command_name)`: `none` models the `ValueError`
the enum constructor raises on an unknown value. -/
def commandTypeOfString (s : String) : Option OrchestratorCommandType :=
  if s = "ALLOCATION" then some .ALLOCATION
  else if s = "PAYMENT" then some .PAYMENT
  else if s = "SEAT" then some .SEAT
  else none

/-- The command classes the registry can map to. -/
inductive CommandClass
  | allocateCommand
  | paymentCommand
  | seatCommand
deriving DecidableEq, Repr

/-- `ORCHESTRATOR_COMMAND_REGISTRY`. -/
def ORCHESTRATOR_COMMAND_REGISTRY : List (OrchestratorCommandType × CommandClass) :=
  [(.ALLOCATION, .allocateCommand), (.PAYMENT, .paymentCommand), (.SEAT, .seatCommand)]

/-- `registry.get(command_type, None)`. -/
def registryGet : List (OrchestratorCommandType × CommandClass) →
    OrchestratorCommandType → Option CommandClass
  | [], _ => none
  | (k, v) :: rest, t => if k = t then some v else registryGet rest t

/-- `OrchestratorCommandFactory.get_command` (lines 45–71).  The second
component is the trace of collaborator calls made while resolving and
constructing the command: the enum parse, the registry lookup and the
command constructors (`__init__` only stores `command_args` fields) perform
no HTTP call, so it is empty on every path.  An unknown name raises
`ValueError` (the error taxonomy's InvalidCommand), modelled as `.error`. -/
def get_command (registry : List (OrchestratorCommandType × CommandClass))
    (command_name : String) : Except String CommandClass × List Endpoint :=
  match commandTypeOfString command_name with
  | none => (.error ("Command '" ++ command_name ++ "' is not supported"), [])
  | some t =>
    match registryGet registry t with
    | none => (.error ("No command found for type: " ++ command_name), [])
    | some c => (.ok c, [])

/-! ## Predicates used to state the claims -/

/-- The outcome `process_booking` sees for forward step `i` (1-indexed:
1 = seat blocking, 2 = payment, 3 = allocation). -/
def stepOutcome (env : Env) (i : Nat) : CallOutcome :=
  if i = 1 then env.block else if i = 2 then env.pay else env.alloc

/-- A forward call that completes successfully: a 200 response whose body
validates as a `TransactionResult` with a present `data` dict, so the
pipeline records the step and moves on. -/
def SuccessResp (o : CallOutcome) : Prop :=
  ∃ r tx d, o = .resp r ∧ r.status_code = 200 ∧ r.body.tx = some tx ∧ tx.data = some d

/-- A business rejection: the collaborator answered with a non-success
status code (the branch that raises `OrchestratorException`). -/
def BusinessReject (o : CallOutcome) : Prop :=
  ∃ r, o = .resp r ∧ r.status_code ≠ 200

/-- A non-business error: the client raised (unreachable collaborator,
timeout), or a 200 response whose body is malformed — it does not
validate as a `TransactionResult`, or its `data` dict is missing so the
`timestamp` access raises. -/
def EscalatingError (o : CallOutcome) : Prop :=
  o = .transportError ∨
    ∃ r, o = .resp r ∧ r.status_code = 200 ∧
      (r.body.tx = none ∨ ∃ tx, r.body.tx = some tx ∧ tx.data = none)

/-- A fully successful forward call whose returned transaction status is
COMPLETED. -/
def CompletedSuccess (o : CallOutcome) : Prop :=
  ∃ r tx d, o = .resp r ∧ r.status_code = 200 ∧ r.body.tx = some tx ∧
    tx.status = .COMPLETED ∧ tx.data = some d

/-- A fully successful allocation call whose returned transaction status is
COMPLETED and whose `data` dict carries the boarding pass `bp`. -/
def CompletedSuccessPass (o : CallOutcome) (bp : String) : Prop :=
  ∃ r tx d, o = .resp r ∧ r.status_code = 200 ∧ r.body.tx = some tx ∧
    tx.status = .COMPLETED ∧ tx.data = some d ∧ d.boarding_pass = some bp

/-- The compensating (undo) endpoints of the forward pipeline. -/
def isUndoCall : Endpoint → Bool
  | .releaseSeat => true
  | .refundPayment => true
  | _ => false

/-- The undo calls a forward run failing at step `k` must issue: the
completed steps `k-1 … 1` undone in reverse order (step 1's undo is
seat release, step 2's undo is payment refund). -/
def undoTraceFor : Nat → List Endpoint
  | 2 => [Endpoint.releaseSeat]
  | 3 => [Endpoint.refundPayment, Endpoint.releaseSeat]
  | _ => []

/-- A step-type name resolvable through the factory: the enum parse
succeeds and the registry maps the parsed type to a command class. -/
def knownCommand (registry : List (OrchestratorCommandType × CommandClass))
    (name : String) : Bool :=
  match commandTypeOfString name with
  | none => false
  | some t => (registryGet registry t).isSome

/-- The default `OrchestratorSettings` (no environment overrides). -/
def defaultSettings : OrchestratorSettings := {}

/-! ## Concrete sample data for witnesses and counterexamples -/

/-- A well-formed success `TransactionResult` with the given status and
timestamp. -/
def txOk (st : TStatus) (ts : String) : TransactionResult :=
  { success := true, booking_id := "test-booking-id", status := st,
    message := "", data := some { timestamp := some ts, boarding_pass := none } }

/-- A 200 response carrying `txOk st ts`. -/
def okResp (st : TStatus) (ts : String) : HttpResponse :=
  { status_code := 200, body := { message := none, tx := some (txOk st ts) } }

/-- A 400 business-rejection response carrying an error message. -/
def rejectResp (msg : String) : HttpResponse :=
  { status_code := 400, body := { message := some msg, tx := none } }

/-- The `TransactionResult` of a successful allocation carrying a boarding
pass. -/
def allocTxOk : TransactionResult :=
  { success := true, booking_id := "test-booking-id", status := .COMPLETED,
    message := "",
    data := some { timestamp := some "t3", boarding_pass := some "BP-1" } }

/-- A 200 allocation response whose data carries a boarding pass. -/
def allocOkResp : HttpResponse :=
  { status_code := 200, body := { message := none, tx := some allocTxOk } }

/-- A fresh PENDING booking, as `start_booking` creates it. -/
def bPending : BookingDetails :=
  { booking_id := "test-booking-id", status := .PENDING,
    passenger_name := "John Doe", flight_number := "FL123", seat_number := "12A",
    steps := [], boarding_pass := none }

/-- A FAILED booking. -/
def bFailedSample : BookingDetails :=
  { booking_id := "b1", status := .FAILED,
    passenger_name := "Alice", flight_number := "FL9", seat_number := "1C",
    steps := [], boarding_pass := none }

/-- A CANCELLED booking with a non-empty step log. -/
def bCancelledSample : BookingDetails :=
  { booking_id := "b2", status := .CANCELLED,
    passenger_name := "Bob", flight_number := "FL7", seat_number := "2B",
    steps := [mkStep "seat_service" "block_seat" .COMPLETED "t0"],
    boarding_pass := none }

/-- An environment in which every collaborator call succeeds. -/
def envAllSuccess : Env :=
  { block := .resp (okResp .COMPLETED "t1"), pay := .resp (okResp .COMPLETED "t2"),
    alloc := .resp allocOkResp, release := .resp (okResp .RELEASED "t4"),
    refund := .resp (okResp .REFUNDED "t5"),
    cancelAlloc := .resp (okResp .RELEASED "t6") }

/-- An environment in which the payment collaborator rejects the charge. -/
def envPayReject : Env :=
  { envAllSuccess with pay := .resp (rejectResp "amount exceeds limit") }

/-- An environment in which the allocation call fails at transport level. -/
def envAllocTransport : Env :=
  { envAllSuccess with alloc := .transportError }

/-! ## Theorems -/

/-- Inserting under a key makes lookup of that key return the inserted
value (Python dict assignment semantics). -/
theorem dbLookup_dbInsert (db : BookingsDb) (bid : String) (b : BookingDetails) :
    dbLookup (dbInsert db bid b) bid = some b := by
  induction db with
  | nil => simp [dbInsert, dbLookup]
  | cons kv rest ih =>
    obtain ⟨k, v⟩ := kv
    by_cases h : k = bid
    · simp [dbInsert, dbLookup, h]
    · simp [dbInsert, dbLookup, h, ih]

/-- C1: in a forward run over the default sequence [seat, payment,
allocation] where steps 1..k-1 complete successfully and step k fails with
a business rejection, the completed steps are each undone exactly once, in
strict reverse order (k-1 down to 1), and the booking ends FAILED. -/
theorem forward_failure_compensates_in_reverse
    (env : Env) (b : BookingDetails) (k : Nat)
    (hk1 : 1 ≤ k) (hk3 : k ≤ 3)
    (hsucc : ∀ i, 1 ≤ i → i < k → SuccessResp (stepOutcome env i))
    (hrej : BusinessReject (stepOutcome env k)) :
    (process_booking env b).1.status = .FAILED ∧
    List.filter isUndoCall (process_booking env b).2 = undoTraceFor k := by
  interval_cases k
  · simp only [stepOutcome] at hrej
    norm_num at hrej
    obtain ⟨r, hb, hc⟩ := hrej
    simp [process_booking, hb, hc, isUndoCall, undoTraceFor]
  · have h1 := hsucc 1 (by omega) (by omega)
    simp only [stepOutcome] at h1 hrej
    norm_num at h1 hrej
    obtain ⟨r1, tx1, d1, hb1, hc1, ht1, hd1⟩ := h1
    obtain ⟨pr, hb2, hc2⟩ := hrej
    rcases hr : env.release with _ | rr
    · simp [process_booking, hb1, hc1, ht1, hd1, hb2, hc2, hr, isUndoCall, undoTraceFor]
    · rcases htx : rr.body.tx with _ | rtx
      · simp [process_booking, hb1, hc1, ht1, hd1, hb2, hc2, hr, htx, isUndoCall,
          undoTraceFor]
      · rcases hdd : rtx.data with _ | rd <;>
          simp [process_booking, hb1, hc1, ht1, hd1, hb2, hc2, hr, htx, hdd,
            isUndoCall, undoTraceFor]
  · have h1 := hsucc 1 (by omega) (by omega)
    have h2 := hsucc 2 (by omega) (by omega)
    simp only [stepOutcome] at h1 h2 hrej
    norm_num at h1 h2 hrej
    obtain ⟨r1, tx1, d1, hb1, hc1, ht1, hd1⟩ := h1
    obtain ⟨r2, tx2, d2, hb2, hc2, ht2, hd2⟩ := h2
    obtain ⟨ar, hb3, hc3⟩ := hrej
    simp [process_booking, hb1, hc1, ht1, hd1, hb2, hc2, ht2, hd2, hb3, hc3,
      isUndoCall, undoTraceFor]

/-- C1 witness: seat succeeds, payment is rejected with "amount exceeds
limit" (k = 2): the seat is released once and the booking ends FAILED. -/
theorem forward_failure_compensates_in_reverse_witness :
    (process_booking envPayReject bPending).1.status = .FAILED ∧
    List.filter isUndoCall (process_booking envPayReject bPending).2 = undoTraceFor 2 :=
  forward_failure_compensates_in_reverse envPayReject bPending 2 (by omega) (by omega)
    (fun i h1 h2 => by
      have hi : i = 1 := by omega
      subst hi
      exact ⟨okResp .COMPLETED "t1", txOk .COMPLETED "t1",
        { timestamp := some "t1", boarding_pass := none }, rfl, rfl, rfl, rfl⟩)
    ⟨rejectResp "amount exceeds limit", rfl, by decide⟩

/-- C2: when all three configured steps succeed (200 responses with
COMPLETED results, the allocation one carrying a boarding pass `bp`), the
booking ends COMPLETED with exactly three step-log entries in configured
order, each COMPLETED, and the returned boarding pass is stored. -/
theorem all_steps_succeed_completed
    (env : Env) (b : BookingDetails) (bp : String)
    (hsteps : b.steps = [])
    (h1 : CompletedSuccess env.block)
    (h2 : CompletedSuccess env.pay)
    (h3 : CompletedSuccessPass env.alloc bp) :
    (process_booking env b).1.status = .COMPLETED ∧
    (process_booking env b).1.steps.map (fun s => (s.service, s.operation, s.status)) =
      [("seat_service", "block_seat", TStatus.COMPLETED),
       ("payment_service", "process_payment", TStatus.COMPLETED),
       ("allocation_service", "allocate_seat", TStatus.COMPLETED)] ∧
    (process_booking env b).1.boarding_pass = some bp := by
  obtain ⟨r1, tx1, d1, hb1, hc1, ht1, hs1, hd1⟩ := h1
  obtain ⟨r2, tx2, d2, hb2, hc2, ht2, hs2, hd2⟩ := h2
  obtain ⟨r3, tx3, d3, hb3, hc3, ht3, hs3, hd3, hbp⟩ := h3
  simp [process_booking, hsteps, hb1, hc1, ht1, hs1, hd1, hb2, hc2, ht2, hs2, hd2,
    hb3, hc3, ht3, hs3, hd3, hbp, mkStep]

/-- C2 witness: the all-success environment completes the booking with the
three COMPLETED steps and boarding pass "BP-1". -/
theorem all_steps_succeed_completed_witness :
    (process_booking envAllSuccess bPending).1.status = .COMPLETED ∧
    (process_booking envAllSuccess bPending).1.steps.map
        (fun s => (s.service, s.operation, s.status)) =
      [("seat_service", "block_seat", TStatus.COMPLETED),
       ("payment_service", "process_payment", TStatus.COMPLETED),
       ("allocation_service", "allocate_seat", TStatus.COMPLETED)] ∧
    (process_booking envAllSuccess bPending).1.boarding_pass = some "BP-1" :=
  all_steps_succeed_completed envAllSuccess bPending "BP-1" rfl
    ⟨okResp .COMPLETED "t1", txOk .COMPLETED "t1",
      { timestamp := some "t1", boarding_pass := none }, rfl, rfl, rfl, rfl, rfl⟩
    ⟨okResp .COMPLETED "t2", txOk .COMPLETED "t2",
      { timestamp := some "t2", boarding_pass := none }, rfl, rfl, rfl, rfl, rfl⟩
    ⟨allocOkResp, allocTxOk,
      { timestamp := some "t3", boarding_pass := some "BP-1" },
      rfl, rfl, rfl, rfl, rfl, rfl⟩

/-- C9: when steps 1..k-1 complete successfully and step k hits an error
other than a business rejection (transport failure, or a 200 response with
a malformed body), the pipeline escalates: the booking ends FAILED and no
compensating (undo) call is made. -/
theorem escalating_error_skips_compensation
    (env : Env) (b : BookingDetails) (k : Nat)
    (hk1 : 1 ≤ k) (hk3 : k ≤ 3)
    (hsucc : ∀ i, 1 ≤ i → i < k → SuccessResp (stepOutcome env i))
    (herr : EscalatingError (stepOutcome env k)) :
    (process_booking env b).1.status = .FAILED ∧
    List.filter isUndoCall (process_booking env b).2 = [] := by
  interval_cases k
  · simp only [stepOutcome] at herr
    norm_num at herr
    rcases herr with he | ⟨r, hb, hc, hbad⟩
    · simp [process_booking, he, isUndoCall]
    · rcases hbad with htx | ⟨tx, htx, hdd⟩ <;>
        simp [process_booking, hb, hc, htx, isUndoCall]
      simp [hdd]
  · have h1 := hsucc 1 (by omega) (by omega)
    simp only [stepOutcome] at h1 herr
    norm_num at h1 herr
    obtain ⟨r1, tx1, d1, hb1, hc1, ht1, hd1⟩ := h1
    rcases herr with he | ⟨r, hb, hc, hbad⟩
    · simp [process_booking, hb1, hc1, ht1, hd1, he, isUndoCall]
    · rcases hbad with htx | ⟨tx, htx, hdd⟩ <;>
        simp [process_booking, hb1, hc1, ht1, hd1, hb, hc, htx, isUndoCall]
      simp [hdd]
  · have h1 := hsucc 1 (by omega) (by omega)
    have h2 := hsucc 2 (by omega) (by omega)
    simp only [stepOutcome] at h1 h2 herr
    norm_num at h1 h2 herr
    obtain ⟨r1, tx1, d1, hb1, hc1, ht1, hd1⟩ := h1
    obtain ⟨r2, tx2, d2, hb2, hc2, ht2, hd2⟩ := h2
    rcases herr with he | ⟨r, hb, hc, hbad⟩
    · simp [process_booking, hb1, hc1, ht1, hd1, hb2, hc2, ht2, hd2, he, isUndoCall]
    · rcases hbad with htx | ⟨tx, htx, hdd⟩ <;>
        simp [process_booking, hb1, hc1, ht1, hd1, hb2, hc2, ht2, hd2, hb, hc, htx,
          isUndoCall]
      simp [hdd]

/-- C9 witness: seat and payment succeed, the allocation call fails at
transport level: the booking ends FAILED with no undo call issued. -/
theorem escalating_error_skips_compensation_witness :
    (process_booking envAllocTransport bPending).1.status = .FAILED ∧
    List.filter isUndoCall (process_booking envAllocTransport bPending).2 = [] :=
  escalating_error_skips_compensation envAllocTransport bPending 3 (by omega) (by omega)
    (fun i h1 h2 => by
      have hi : i = 1 ∨ i = 2 := by omega
      rcases hi with hi | hi <;> subst hi
      · exact ⟨okResp .COMPLETED "t1", txOk .COMPLETED "t1",
          { timestamp := some "t1", boarding_pass := none }, rfl, rfl, rfl, rfl⟩
      · exact ⟨okResp .COMPLETED "t2", txOk .COMPLETED "t2",
          { timestamp := some "t2", boarding_pass := none }, rfl, rfl, rfl, rfl⟩)
    (Or.inl rfl)

/-- C3 counterexample: a business rejection of the allocation step appends
*no* step to the booking's log (the claim requires exactly one FAILED step
for every command variant); the command only raises the StepFailure. -/
theorem allocate_execute_rejection_appends_no_step :
    (rejectResp "Allocation failed").status_code ≠ 200 ∧
    (allocateCommand_execute (.resp (rejectResp "Allocation failed")) bPending).1.steps
      = [] ∧
    (allocateCommand_execute (.resp (rejectResp "Allocation failed")) bPending).2 =
      some (.stepFailure "test-booking-id"
        "Failed to allocate seat: Allocation failed") :=
  ⟨by decide, rfl, rfl⟩

/-- C3 (amended): on a business rejection, `SeatCommand.execute` and
`PaymentCommand.execute` each append exactly one FAILED step carrying the
collaborator's message and raise a StepFailure with the booking id and
cause; `AllocateCommand.execute` raises the same StepFailure but appends
no step. -/
theorem execute_business_rejection_contract
    (b : BookingDetails) (r : HttpResponse) (h : r.status_code ≠ 200) :
    seatCommand_execute (.resp r) b =
      ({ b with steps := b.steps ++
          [mkStep "seat_service" "block_seat" .FAILED ""
            (some (r.body.message.getD "Unknown error"))] },
       some (.stepFailure b.booking_id
         ("Failed to block seat: " ++ r.body.message.getD "Unknown error"))) ∧
    paymentCommand_execute (.resp r) b =
      ({ b with steps := b.steps ++
          [mkStep "payment_service" "process_payment" .FAILED ""
            (some (r.body.message.getD "Unknown error"))] },
       some (.stepFailure b.booking_id
         ("Failed to process payment: " ++ r.body.message.getD "Unknown error"))) ∧
    allocateCommand_execute (.resp r) b =
      (b, some (.stepFailure b.booking_id
        ("Failed to allocate seat: " ++ r.body.message.getD "Unknown error"))) := by
  refine ⟨?_, ?_, ?_⟩ <;>
    simp [seatCommand_execute, paymentCommand_execute, allocateCommand_execute, h]

/-- C3 witness: applying the rejection contract to a concrete 400 response. -/
theorem execute_business_rejection_contract_witness :
    seatCommand_execute (.resp (rejectResp "Seat 12A is not available")) bPending =
      ({ bPending with steps :=
          [mkStep "seat_service" "block_seat" .FAILED ""
            (some "Seat 12A is not available")] },
       some (.stepFailure "test-booking-id"
         "Failed to block seat: Seat 12A is not available")) ∧
    paymentCommand_execute (.resp (rejectResp "Seat 12A is not available")) bPending =
      ({ bPending with steps :=
          [mkStep "payment_service" "process_payment" .FAILED ""
            (some "Seat 12A is not available")] },
       some (.stepFailure "test-booking-id"
         "Failed to process payment: Seat 12A is not available")) ∧
    allocateCommand_execute (.resp (rejectResp "Seat 12A is not available")) bPending =
      (bPending, some (.stepFailure "test-booking-id"
        "Failed to allocate seat: Seat 12A is not available")) :=
  execute_business_rejection_contract bPending (rejectResp "Seat 12A is not available")
    (by decide)

/-- C4: evaluation of the defect — for *any* response whose body parses as
a `TransactionResult` (in particular every successful refund/cancel reply),
`PaymentCommand.undo` and `AllocateCommand.undo` append no step and raise
(`response.status` / `response.data` do not exist on an `httpx.Response`),
while `SeatCommand.undo` appends exactly one step and returns normally as
documented. -/
theorem payment_allocation_undo_raise_attribute_error
    (b : BookingDetails) (r : HttpResponse) (tx : TransactionResult) (d : TxData)
    (htx : r.body.tx = some tx) (hd : tx.data = some d) :
    paymentCommand_undo (.resp r) b = (b, some .attributeError) ∧
    allocateCommand_undo (.resp r) b = (b, some .attributeError) ∧
    seatCommand_undo (.resp r) b =
      ({ b with steps := b.steps ++
          [mkStep "seat_service" "release_seat" tx.status (d.timestamp.getD "")] },
       none) := by
  refine ⟨?_, ?_, ?_⟩ <;>
    simp [paymentCommand_undo, allocateCommand_undo, seatCommand_undo, htx, hd]

/-- C4 witness: a well-formed 200 refund response still makes the payment
and allocation undos raise without appending, while the seat undo appends
its release step. -/
theorem payment_allocation_undo_raise_attribute_error_witness :
    paymentCommand_undo (.resp (okResp .REFUNDED "t5")) bPending =
      (bPending, some .attributeError) ∧
    allocateCommand_undo (.resp (okResp .REFUNDED "t5")) bPending =
      (bPending, some .attributeError) ∧
    seatCommand_undo (.resp (okResp .REFUNDED "t5")) bPending =
      ({ bPending with steps :=
          [mkStep "seat_service" "release_seat" (txOk .REFUNDED "t5").status
            ((({ timestamp := some "t5", boarding_pass := none } : TxData)).timestamp.getD "")] },
       none) :=
  payment_allocation_undo_raise_attribute_error bPending (okResp .REFUNDED "t5")
    (txOk .REFUNDED "t5") { timestamp := some "t5", boarding_pass := none } rfl rfl

/-- C5: evaluation of the defect — `AllocateCommand.undo` builds its
cancellation URL from the *payment* service base address, not the
allocation service's: with the default settings the request goes to
http://localhost:8002 (payment) although the allocation service is at
http://localhost:8003. -/
theorem allocate_undo_targets_payment_service :
    allocateCommand_undo_request defaultSettings bPending =
      ("http://localhost:8002/api/allocations/cancel", "test-booking-id") ∧
    (allocateCommand_undo_request defaultSettings bPending).1 =
      defaultSettings.payment_service_url ++ "/api/allocations/cancel" ∧
    (allocateCommand_undo_request defaultSettings bPending).1 ≠
      defaultSettings.allocation_service_url ++ "/api/allocations/cancel" :=
  ⟨rfl, rfl, by decide⟩

/-- C6: the cancellation pipeline always issues its three compensating
calls in the fixed order allocation-cancel, payment-refund, seat-release,
whatever each call's outcome; a step is appended only for a call that
succeeds (and at most one per call), and the booking status is untouched. -/
theorem cancellation_pipeline_fixed_order_best_effort
    (env : Env) (b : BookingDetails) :
    (cancel_booking_process env b).2 =
      [Endpoint.cancelAllocation, Endpoint.refundPayment, Endpoint.releaseSeat] ∧
    (cancel_booking_process env b).1.steps =
      b.steps
        ++ compensationStep "allocation_service" "cancel_allocation" env.cancelAlloc
        ++ compensationStep "payment_service" "refund_payment" env.refund
        ++ compensationStep "seat_service" "release_seat" env.release ∧
    (∀ svc op o, compensationStep svc op o ≠ [] → isSuccess o = true) ∧
    (∀ svc op o, (compensationStep svc op o).length ≤ 1) ∧
    (cancel_booking_process env b).1.status = b.status := by
  refine ⟨rfl, by simp [cancel_booking_process], ?_, ?_, rfl⟩
  · intro svc op o h
    rcases o with _ | r
    · simp [compensationStep] at h
    · by_cases hc : r.status_code = 200
      · rcases htx : r.body.tx with _ | tx
        · simp [compensationStep, hc, htx] at h
        · rcases hd : tx.data with _ | d
          · simp [compensationStep, hc, htx, hd] at h
          · simp [isSuccess, hc, htx, hd]
      · simp [compensationStep, hc] at h
  · intro svc op o
    rcases o with _ | r
    · simp [compensationStep]
    · by_cases hc : r.status_code = 200
      · rcases htx : r.body.tx with _ | tx
        · simp [compensationStep, hc, htx]
        · rcases hd : tx.data with _ | d <;> simp [compensationStep, hc, htx, hd]
      · simp [compensationStep, hc]

/-- C6 witness: the fixed-order trace and untouched status at a concrete
environment and booking. -/
theorem cancellation_pipeline_fixed_order_best_effort_witness :
    (cancel_booking_process envAllSuccess bPending).2 =
      [Endpoint.cancelAllocation, Endpoint.refundPayment, Endpoint.releaseSeat] ∧
    (cancel_booking_process envAllSuccess bPending).1.status = bPending.status :=
  ⟨(cancellation_pipeline_fixed_order_best_effort envAllSuccess bPending).1,
   (cancellation_pipeline_fixed_order_best_effort envAllSuccess bPending).2.2.2.2⟩

/-- C7 counterexample: the cancel endpoint changes a FAILED booking to
CANCELLED (the code only guards against already-CANCELLED bookings), so a
FAILED booking's status is *not* final and the transition FAILED→CANCELLED
is reachable, contrary to the claim. -/
theorem cancel_changes_failed_booking_status :
    bFailedSample.status = .FAILED ∧
    cancel_booking [("b1", bFailedSample)] "b1" =
      some ({ booking_id := "b1", status := .CANCELLED,
              message := "Booking cancellation started", compensation_steps := [] },
            [("b1", { bFailedSample with status := BStatus.CANCELLED })], true) :=
  ⟨rfl, by decide⟩

/-- C7 (amended): the forward pipeline always ends a booking COMPLETED or
FAILED; the explicit cancel path moves *any* booking that is not yet
CANCELLED — PENDING, COMPLETED or FAILED alike — to CANCELLED and enqueues
the compensation pipeline; a booking already CANCELLED is returned
unchanged with no new pipeline. -/
theorem booking_status_transition_graph :
    (∀ env b, (process_booking env b).1.status = .COMPLETED ∨
              (process_booking env b).1.status = .FAILED) ∧
    (∀ db bid b, dbLookup db bid = some b → b.status ≠ .CANCELLED →
       cancel_booking db bid =
         some ({ booking_id := bid, status := .CANCELLED,
                 message := "Booking cancellation started", compensation_steps := [] },
               dbInsert db bid { b with status := BStatus.CANCELLED }, true) ∧
       dbLookup (dbInsert db bid { b with status := BStatus.CANCELLED }) bid =
         some { b with status := BStatus.CANCELLED }) ∧
    (∀ db bid b, dbLookup db bid = some b → b.status = .CANCELLED →
       cancel_booking db bid =
         some ({ booking_id := bid, status := .CANCELLED,
                 message := "Booking already cancelled", compensation_steps := b.steps },
               db, false)) := by
  refine ⟨?_, ?_, ?_⟩
  · intro env b
    rcases hb : env.block with _ | r
    · simp [process_booking, hb]
    · by_cases hc : r.status_code = 200
      · rcases ht : r.body.tx with _ | tx
        · simp [process_booking, hb, hc, ht]
        · rcases hd : tx.data with _ | d
          · simp [process_booking, hb, hc, ht, hd]
          · rcases hp : env.pay with _ | pr
            · simp [process_booking, hb, hc, ht, hd, hp]
            · by_cases hpc : pr.status_code = 200
              · rcases hpt : pr.body.tx with _ | ptx
                · simp [process_booking, hb, hc, ht, hd, hp, hpc, hpt]
                · rcases hpd : ptx.data with _ | pd
                  · simp [process_booking, hb, hc, ht, hd, hp, hpc, hpt, hpd]
                  · rcases ha : env.alloc with _ | ar
                    · simp [process_booking, hb, hc, ht, hd, hp, hpc, hpt, hpd, ha]
                    · by_cases hac : ar.status_code = 200
                      · rcases hat : ar.body.tx with _ | atx
                        · simp [process_booking, hb, hc, ht, hd, hp, hpc, hpt, hpd,
                            ha, hac, hat]
                        · rcases had : atx.data with _ | ad <;>
                            simp [process_booking, hb, hc, ht, hd, hp, hpc, hpt,
                              hpd, ha, hac, hat, had]
                      · simp [process_booking, hb, hc, ht, hd, hp, hpc, hpt, hpd,
                          ha, hac]
              · rcases hr : env.release with _ | rr
                · simp [process_booking, hb, hc, ht, hd, hp, hpc, hr]
                · rcases hrt : rr.body.tx with _ | rtx
                  · simp [process_booking, hb, hc, ht, hd, hp, hpc, hr, hrt]
                  · rcases hrd : rtx.data with _ | rd <;>
                      simp [process_booking, hb, hc, ht, hd, hp, hpc, hr, hrt, hrd]
      · simp [process_booking, hb, hc]
  · intro db bid b hl hs
    exact ⟨by simp [cancel_booking, hl, hs], dbLookup_dbInsert db bid _⟩
  · intro db bid b hl hs
    simp [cancel_booking, hl, hs]

/-- C7 witness: the amended cancel transition applied to the concrete
FAILED booking, discharging the lookup and non-CANCELLED hypotheses. -/
theorem booking_status_transition_graph_witness :
    cancel_booking [("b1", bFailedSample)] "b1" =
      some ({ booking_id := "b1", status := .CANCELLED,
              message := "Booking cancellation started", compensation_steps := [] },
            dbInsert [("b1", bFailedSample)] "b1"
              { bFailedSample with status := BStatus.CANCELLED }, true) ∧
    dbLookup (dbInsert [("b1", bFailedSample)] "b1"
        { bFailedSample with status := BStatus.CANCELLED }) "b1" =
      some { bFailedSample with status := BStatus.CANCELLED } :=
  booking_status_transition_graph.2.1 [("b1", bFailedSample)] "b1" bFailedSample rfl
    (by decide)

/-- C8: resolving a step-type name that is not in the command registry —
the enum parse fails, or the registry holds no class for the parsed type —
makes `get_command` fail with the InvalidCommand `ValueError`, and no
collaborator call is made on any path of pipeline construction. -/
theorem unknown_command_fails_before_any_call
    (registry : List (OrchestratorCommandType × CommandClass)) (name : String)
    (h : knownCommand registry name = false) :
    (∃ msg, (get_command registry name).1 = .error msg) ∧
    (get_command registry name).2 = [] := by
  unfold knownCommand at h
  cases hct : commandTypeOfString name with
  | none => exact ⟨⟨"Command '" ++ name ++ "' is not supported",
      by simp [get_command, hct]⟩, by simp [get_command, hct]⟩
  | some t =>
    rw [hct] at h
    cases hr : registryGet registry t with
    | none => exact ⟨⟨"No command found for type: " ++ name,
        by simp [get_command, hct, hr]⟩, by simp [get_command, hct, hr]⟩
    | some c => simp [hr] at h

/-- C8 witness: the name "INVALID" is rejected by the default registry with
an error and an empty call trace. -/
theorem unknown_command_fails_before_any_call_witness :
    (∃ msg, (get_command ORCHESTRATOR_COMMAND_REGISTRY "INVALID").1 = .error msg) ∧
    (get_command ORCHESTRATOR_COMMAND_REGISTRY "INVALID").2 = [] :=
  unknown_command_fails_before_any_call ORCHESTRATOR_COMMAND_REGISTRY "INVALID" rfl

/-- C10: cancelling an already-CANCELLED booking returns the CANCELLED
status together with the booking's existing step log, enqueues no
compensation pipeline, and leaves the stored booking state unchanged. -/
theorem cancel_on_cancelled_is_noop
    (db : BookingsDb) (bid : String) (b : BookingDetails)
    (hl : dbLookup db bid = some b) (hs : b.status = .CANCELLED) :
    cancel_booking db bid =
      some ({ booking_id := bid, status := .CANCELLED,
              message := "Booking already cancelled", compensation_steps := b.steps },
            db, false) := by
  simp [cancel_booking, hl, hs]

/-- C10 witness: cancelling the concrete already-CANCELLED booking. -/
theorem cancel_on_cancelled_is_noop_witness :
    cancel_booking [("b2", bCancelledSample)] "b2" =
      some ({ booking_id := "b2", status := .CANCELLED,
              message := "Booking already cancelled",
              compensation_steps := bCancelledSample.steps },
            [("b2", bCancelledSample)], false) :=
  cancel_on_cancelled_is_noop [("b2", bCancelledSample)] "b2" bCancelledSample rfl rfl

end AirlineSaga
